import Mathlib

/-!
Verification development for the bank-lending-system frontend.

The embedding translates, from the source:
  * `App.js` (debounced identifier resolver + overview fetch coordinator):
    the debounce `useEffect`, `fetchCustomerOverview`, and the wiring of
    the mutation forms;
  * `LoanApplication/index.js` and `PaymentForm/index.js`: client-side
    validation and the submit handlers;
  * `LoanLedger/index.js`: `fetchLoanLedger`.

The React `setX` state writes are modelled as an explicit event list
(`SetEv`) folded over the component state, so that "how many times was the
loading flag written" is a property of the produced write log, not an
assumption.  Network outcomes are modelled as an inductive `FetchOutcome`
(a 2xx body, a non-2xx response with an optional `message` field, or a
transport error / thrown exception).  The interleaving of the debounce
timer, fetch issuing and fetch resolution is modelled as a labelled
transition system (`SysState`, `step`) with an explicit millisecond clock.
-/

namespace BankFrontend

/-- A loan record as projected from the overview API response
(`loan_id`, `principal`, `total_amount`, `total_interest`, `emi_amount`,
`amount_paid`, `emis_left`). -/
structure Loan where
  loan_id : String
  principal : ℚ
  total_amount : ℚ
  total_interest : ℚ
  emi_amount : ℚ
  amount_paid : ℚ
  emis_left : ℕ
  deriving Repr, DecidableEq

/-- The coordinator's React state slice touched by `fetchCustomerOverview`:
`customerLoans`, `customerName`, `isLoading`, `error`. -/
structure OverviewState where
  customerLoans : List Loan
  customerName : String
  isLoading : Bool
  error : Option String
  deriving Repr, DecidableEq

/-- Initial component state: `useState([])`, `useState('')`,
`useState(false)`, `useState(null)`. -/
def initOverviewState : OverviewState :=
  { customerLoans := [], customerName := "", isLoading := false, error := none }

/-- One React state write performed by the coordinator
(`setCustomerLoans` / `setCustomerName` / `setIsLoading` / `setError`). -/
inductive SetEv where
  | setLoans (l : List Loan)
  | setName (n : String)
  | setLoading (b : Bool)
  | setError (e : Option String)
  deriving Repr, DecidableEq

/-- Apply one state write. -/
def applyEv (s : OverviewState) : SetEv → OverviewState
  | .setLoans l => { s with customerLoans := l }
  | .setName n => { s with customerName := n }
  | .setLoading b => { s with isLoading := b }
  | .setError e => { s with error := e }

/-- Apply a list of state writes in order. -/
def applyEvs (s : OverviewState) (l : List SetEv) : OverviewState :=
  l.foldl applyEv s

/-- Outcome of the awaited overview request, as seen by the `try` block:
a 2xx response whose parsed body may carry `customer_name` and `loans`;
a non-2xx response whose parsed body may carry a `message` field; or a
thrown error (transport failure, or `response.json()` itself throwing)
carrying the JS `err.message`. -/
inductive FetchOutcome where
  | success (customer_name : Option String) (loans : Option (List Loan))
  | httpError (status : ℕ) (message : Option String)
  | transportError (message : String)
  deriving Repr, DecidableEq

/-- JS truthiness of a string: `""` is falsy, everything else truthy.
`x || y` on strings is `jsStringOr`. -/
def jsStringOr (x y : String) : String :=
  if x = "" then y else x

/-- Drop leading and trailing whitespace from a character list. -/
def trimChars (l : List Char) : List Char :=
  ((l.dropWhile Char.isWhitespace).reverse.dropWhile Char.isWhitespace).reverse

/-- JS `String.prototype.trim()`: strip leading and trailing whitespace.
(Defined over the character list so it evaluates by kernel reduction.) -/
def jsTrim (s : String) : String :=
  String.mk (trimChars s.toList)

/-- The state writes performed after the awaited response, translated from
`App.js` lines 76-87:

* on `response.ok`: `setCustomerLoans(data.loans || [])`;
  `setCustomerName(data.customer_name || `Customer ${debouncedCustomerId}`)`
  (note `||` also replaces an empty-string name);
* on `!response.ok` the code throws
  `new Error(errorData.message || `HTTP error! status: ${response.status}`)`
  which the `catch` turns into
  `setError(`Failed to load customer data: ${err.message}. Please check the Customer ID.`)`;
  `setCustomerLoans([])`; `setCustomerName('')`;
* a thrown transport error takes the same `catch` with its own message. -/
def resolveWrites (debouncedCustomerId : String) : FetchOutcome → List SetEv
  | .success name? loans? =>
      [ .setLoans (loans?.getD []),
        .setName (jsStringOr (name?.getD "") ("Customer " ++ debouncedCustomerId)) ]
  | .httpError status msg? =>
      let errMessage :=
        jsStringOr (msg?.getD "") ("HTTP error! status: " ++ toString status)
      [ .setError (some ("Failed to load customer data: " ++ errMessage ++
          ". Please check the Customer ID.")),
        .setLoans [], .setName "" ]
  | .transportError m =>
      [ .setError (some ("Failed to load customer data: " ++ m ++
          ". Please check the Customer ID.")),
        .setLoans [], .setName "" ]

/-- The writes performed before the request is issued
(`setIsLoading(true); setError(null);`, App.js lines 72-73). -/
def issueWrites : List SetEv := [.setLoading true, .setError none]

/-- Result of one complete run of `fetchCustomerOverview`: the write log it
produced, whether a network request was issued, and the final state. -/
structure FetchRun where
  log : List SetEv
  requestIssued : Bool
  final : OverviewState
  deriving Repr, DecidableEq

/-- One complete (non-interleaved) execution of `fetchCustomerOverview`
(App.js lines 66-91) for a given captured `debouncedCustomerId` and network
outcome.  The empty-identifier guard (`if (!debouncedCustomerId)`) clears
loans and name and returns before any request; otherwise the issue writes,
the post-resolution writes and the `finally { setIsLoading(false) }` write
run in order. -/
def fetchCustomerOverview (debouncedCustomerId : String) (out : FetchOutcome)
    (s : OverviewState) : FetchRun :=
  if debouncedCustomerId = "" then
    { log := [.setLoans [], .setName ""],
      requestIssued := false,
      final := applyEvs s [.setLoans [], .setName ""] }
  else
    let log := issueWrites ++ resolveWrites debouncedCustomerId out ++ [.setLoading false]
    { log := log, requestIssued := true, final := applyEvs s log }

/-- The spec's tagged-variant FetchState, derived from the component state
exactly as the render conditions of App.js lines 136-156 derive it:
`isLoading` shows Loading, a non-null `error` shows Failure, an empty
`debouncedCustomerId` shows the Idle prompt, otherwise the Success
overview is rendered from the cached name and loans. -/
inductive FetchState where
  | idle
  | loading
  | success (customerName : String) (loans : List Loan)
  | failure (message : String)
  deriving Repr, DecidableEq

/-- Derive the displayed FetchState from the raw component state. -/
def fetchState (debouncedCustomerId : String) (s : OverviewState) : FetchState :=
  if s.isLoading then .loading
  else
    match s.error with
    | some m => .failure m
    | none =>
        if debouncedCustomerId = "" then .idle
        else .success s.customerName s.customerLoans

/-- Number of `setIsLoading(false)` writes in a log. -/
def loadingClears (log : List SetEv) : ℕ :=
  (log.filter (fun e => e = SetEv.setLoading false)).length

/-!
## The interleaved system: debounce timer, fetch issue, fetch resolution

`SysState` is the full App.js state relevant to the resolver and
coordinator, together with an explicit millisecond clock, the pending
debounce timer (`setTimeout` handle with the raw input captured by the
timeout closure), the set of in-flight overview requests (each remembers
the `debouncedCustomerId` value its closure captured), and a log of every
`setDebouncedCustomerId` publication performed by the timer callback.
-/

/-- Whole-app state for the resolver/coordinator subsystem. -/
structure SysState where
  now : ℕ
  mounted : Bool
  customerId : String
  debouncedCustomerId : String
  ov : OverviewState
  timer : Option (ℕ × String)
  inflight : List (ℕ × String)
  nextReq : ℕ
  pubs : List (ℕ × String)
  deriving Repr, DecidableEq

/-- Initial App.js state after mount: all `useState` initialisers. -/
def initSys : SysState :=
  { now := 0, mounted := true, customerId := "", debouncedCustomerId := "",
    ov := initOverviewState, timer := none, inflight := [], nextReq := 0,
    pubs := [] }

/-- Scheduler events: a keystroke (`onChange` → `setCustomerId`), the
pending debounce timer firing, an in-flight overview request resolving
with some outcome, and component teardown. -/
inductive Ev where
  | input (t : ℕ) (v : String)
  | fire (t : ℕ)
  | resolve (t : ℕ) (k : ℕ) (out : FetchOutcome)
  | unmount (t : ℕ)
  deriving Repr, DecidableEq

/-- The fetch effect (`useEffect(() => { fetchCustomerOverview() },
[fetchCustomerOverview])`) re-running after `debouncedCustomerId`
changed: the empty-identifier branch clears loans and name without a
request; otherwise `setIsLoading(true); setError(null);` run and a
request capturing the current identifier goes in flight. -/
def refreshIssue (s : SysState) : SysState :=
  if s.debouncedCustomerId = "" then
    { s with ov := applyEvs s.ov [.setLoans [], .setName ""] }
  else
    { s with ov := applyEvs s.ov issueWrites,
             inflight := s.inflight ++ [(s.nextReq, s.debouncedCustomerId)],
             nextReq := s.nextReq + 1 }

/-- One scheduler step.  `none` means the event is not enabled in this
state (time went backwards, no timer is pending, the timer's 500 ms have
not elapsed, the request id is unknown, or the component is unmounted for
a UI event).

* `input`: the debounce effect re-runs when `customerId` changed —
  its cleanup clears the previous timer and a fresh 500 ms timer capturing
  the new raw value is set.  A `setCustomerId` with an identical value
  does not re-render, so the effect (and the timer) is untouched.
* `fire`: the timer callback trims the captured raw input; a non-empty
  result is published via `setDebouncedCustomerId(trimmedInput)`, an
  empty result runs the else-branch
  (`setDebouncedCustomerId(''); setCustomerLoans([]); setCustomerName('');
  setError(null)`).  When the published value differs from the previous
  `debouncedCustomerId`, the fetch effect re-runs (`refreshIssue`).
* `resolve`: the awaited response of request `k` arrives; the
  continuation applies `resolveWrites` for the identifier the request
  captured, then `finally { setIsLoading(false) }` — with no comparison
  against the current identifier.  On an unmounted component the state
  writes are ignored.
* `unmount`: the effect cleanup runs, clearing the pending timer. -/
def step (s : SysState) : Ev → Option SysState
  | .input t v =>
      if s.mounted ∧ s.now ≤ t then
        if v = s.customerId then
          some { s with now := t }
        else
          some { s with now := t, customerId := v, timer := some (t, v) }
      else none
  | .fire t =>
      if s.mounted ∧ s.now ≤ t then
        match s.timer with
        | some (t0, v) =>
            if t0 + 500 ≤ t then
              let trimmed := jsTrim v
              if trimmed = "" then
                let s1 := { s with now := t, timer := none,
                                   debouncedCustomerId := "",
                                   ov := applyEvs s.ov
                                     [.setLoans [], .setName "", .setError none],
                                   pubs := s.pubs ++ [(t, trimmed)] }
                if s.debouncedCustomerId = "" then some s1
                else some (refreshIssue s1)
              else
                let s1 := { s with now := t, timer := none,
                                   debouncedCustomerId := trimmed,
                                   pubs := s.pubs ++ [(t, trimmed)] }
                if trimmed = s.debouncedCustomerId then some s1
                else some (refreshIssue s1)
            else none
        | none => none
      else none
  | .resolve t k out =>
      if s.now ≤ t then
        match s.inflight.find? (fun p => p.1 = k) with
        | some p =>
            let s1 := { s with now := t,
                               inflight := s.inflight.filter (fun q => q.1 ≠ k) }
            if s.mounted then
              some { s1 with
                     ov := applyEvs s1.ov (resolveWrites p.2 out ++ [.setLoading false]) }
            else some s1
        | none => none
      else none
  | .unmount t =>
      if s.mounted ∧ s.now ≤ t then
        some { s with now := t, mounted := false, timer := none }
      else none

/-- Run a list of scheduler events; fails if any event is not enabled. -/
def run (s : SysState) : List Ev → Option SysState
  | [] => some s
  | e :: rest =>
      match step s e with
      | some s1 => run s1 rest
      | none => none

/-!
## JS number parsing and NaN comparisons

`parseFloat` / `parseInt(x, 10)` are modelled on the decimal fragment the
forms feed them: optional leading/trailing whitespace, optional sign,
decimal digits with an optional fractional part (no exponents).  A result
of `none` models JS `NaN`; every `NaN` comparison is `false`, which is
what `jsLe` / `jsLt` compute.
-/

/-- Numeric value of a digit string. -/
def digitsToNat (l : List Char) : ℕ :=
  l.foldl (fun a c => a * 10 + (c.toNat - Char.toNat (Char.ofNat 48))) 0

/-- JS `parseFloat` on the decimal fragment used by the forms; `none` is
`NaN` (no leading digits at all). -/
def parseFloat (s : String) : Option ℚ :=
  let l := (jsTrim s).toList
  let sign : ℤ × List Char :=
    match l with
    | c :: rest => if c = Char.ofNat 45 then (-1, rest)
                   else if c = Char.ofNat 43 then (1, rest) else (1, l)
    | [] => (1, l)
  let ip := sign.2.takeWhile Char.isDigit
  let rest := sign.2.dropWhile Char.isDigit
  let fp : List Char :=
    match rest with
    | c :: r => if c = Char.ofNat 46 then r.takeWhile Char.isDigit else []
    | [] => []
  if ip = [] ∧ fp = [] then none
  else
    some (Rat.divInt
      (sign.1 * ((digitsToNat ip : ℤ) * 10 ^ fp.length + (digitsToNat fp : ℤ)))
      (10 ^ fp.length))

/-- JS `parseInt(s, 10)` on the decimal fragment used by the forms;
`none` is `NaN`. -/
def parseIntTen (s : String) : Option ℤ :=
  let l := (jsTrim s).toList
  let sign : ℤ × List Char :=
    match l with
    | c :: rest => if c = Char.ofNat 45 then (-1, rest)
                   else if c = Char.ofNat 43 then (1, rest) else (1, l)
    | [] => (1, l)
  let ip := sign.2.takeWhile Char.isDigit
  if ip = [] then none else some (sign.1 * (digitsToNat ip : ℤ))

/-- JS `x <= y` where `x` may be `NaN`: `NaN <= y` is `false`. -/
def jsLe {α : Type} [LinearOrder α] (x : Option α) (y : α) : Bool :=
  match x with
  | some v => decide (v ≤ y)
  | none => false

/-- JS `x < y` where `x` may be `NaN`: `NaN < y` is `false`. -/
def jsLt {α : Type} [LinearOrder α] (x : Option α) (y : α) : Bool :=
  match x with
  | some v => decide (v < y)
  | none => false

/-!
## Mutation forms and the ledger viewer

Each handler is translated into the ordered list of actions it performs
(state writes, the network request, the parent callback), so that "how
many requests" and "how many loading clears" are properties of the log.
-/

/-- Outcome of an awaited form POST as seen inside the `try` block:
`ok` is a 2xx whose parsed body may carry `message`; `apiError` a non-2xx
whose parsed body may carry `message`; `thrown` a transport failure or a
`response.json()` parse failure carrying the JS `err.message`. -/
inductive SubmitOutcome where
  | ok (message : Option String)
  | apiError (message : Option String)
  | thrown (message : String)
  deriving Repr, DecidableEq

/-- Actions of `PaymentForm` `handleSubmit`. -/
inductive PaymentAct where
  | setFeedback (m : Option String)
  | setSuccess (b : Option Bool)
  | setProcessing (b : Bool)
  | setAmount (v : String)
  | setType (v : String)
  | request
  | callOnPaymentRecorded
  deriving Repr, DecidableEq

/-- The client-side validation guard of `PaymentForm` `handleSubmit`
(line 40): `!selectedLoanId || parseFloat(paymentAmount) <= 0 ||
!paymentType`. -/
def paymentValidationFails (selectedLoanId paymentAmount paymentType : String) : Bool :=
  selectedLoanId = "" || jsLe (parseFloat paymentAmount) 0 || paymentType = ""

/-- `PaymentForm` `handleSubmit` (PaymentForm/index.js lines 36-102) as
its ordered action log, given the form fields, whether the
`onPaymentRecorded` prop is a (truthy) callback, and the request
outcome.  `response.json()` is awaited before the `ok` check, so a body
parse failure lands in the `catch`; the `finally` clears the processing
flag on every non-validation path. -/
def paymentHandleSubmit (selectedLoanId paymentAmount paymentType : String)
    (onPaymentRecorded : Bool) (out : SubmitOutcome) : List PaymentAct :=
  if paymentValidationFails selectedLoanId paymentAmount paymentType then
    [ .setSuccess (some false),
      .setFeedback (some ("Please select a loan, ensure payment amount is positive, " ++
        "and select a payment type.")) ]
  else
    [.setFeedback none, .setSuccess none, .setProcessing true, .request] ++
    (match out with
     | .ok msg? =>
         [ .setSuccess (some true), .setFeedback msg?,
           .setAmount "", .setType "EMI" ] ++
         (if onPaymentRecorded then [.callOnPaymentRecorded] else [])
     | .apiError msg? =>
         [ .setSuccess (some false),
           .setFeedback (some (jsStringOr (msg?.getD "")
             "An unexpected server error occurred during payment. Please try again.")) ]
     | .thrown m =>
         [ .setSuccess (some false),
           .setFeedback (some ("Network error: " ++ m ++
             ". Please ensure your backend server is running and accessible.")) ]) ++
    [.setProcessing false]

/-- Actions of `LoanApplication` `handleSubmit`. -/
inductive LoanAct where
  | setMessage (m : Option String)
  | setSuccess (b : Option Bool)
  | setSubmitting (b : Bool)
  | clearFormFields
  | request
  | callOnLoanCreated
  deriving Repr, DecidableEq

/-- The client-side validation guard of `LoanApplication` `handleSubmit`
(lines 30-35): `!customerId.trim() || parseFloat(loanAmount) <= 0 ||
parseFloat(interestRateYearly) < 0 || parseInt(loanPeriodYears, 10) <= 0`. -/
def loanValidationFails (customerId loanAmount interestRateYearly loanPeriodYears : String) :
    Bool :=
  jsTrim customerId = "" || jsLe (parseFloat loanAmount) 0 ||
    jsLt (parseFloat interestRateYearly) 0 || jsLe (parseIntTen loanPeriodYears) 0

/-- `LoanApplication` `handleSubmit` (LoanApplication/index.js lines
26-95) as its ordered action log.  On 2xx the form fields are cleared and
`onLoanCreated` is invoked only when that prop is a truthy callback
(`if (onLoanCreated) { onLoanCreated(); }`). -/
def loanHandleSubmit (customerId loanAmount interestRateYearly loanPeriodYears : String)
    (onLoanCreated : Bool) (out : SubmitOutcome) : List LoanAct :=
  if loanValidationFails customerId loanAmount interestRateYearly loanPeriodYears then
    [ .setSuccess (some false),
      .setMessage (some ("Please ensure all fields are filled correctly: Customer ID, " ++
        "positive Loan Amount, non-negative Annual Interest Rate, and positive Loan Period.")) ]
  else
    [.setMessage none, .setSuccess none, .setSubmitting true, .request] ++
    (match out with
     | .ok msg? =>
         [.setSuccess (some true), .setMessage msg?, .clearFormFields] ++
         (if onLoanCreated then [.callOnLoanCreated] else [])
     | .apiError msg? =>
         [ .setSuccess (some false),
           .setMessage (some (jsStringOr (msg?.getD "")
             ("An unexpected server error occurred during loan application. " ++
              "Please try again."))) ]
     | .thrown m =>
         [ .setSuccess (some false),
           .setMessage (some ("Network error: " ++ m ++
             ". Please ensure your backend server is running and accessible at " ++
             "https://bank-lending-system-backend.onrender.com/api/v1/loans.")) ]) ++
    [.setSubmitting false]

/-- Props App.js passes to `LoanApplication` (App.js line 159):
`customerId={debouncedCustomerId} onLoanApplied={fetchCustomerOverview}`.
The component itself destructures `onLoanCreated`, a prop App.js never
passes.  A `Bool` field records whether the prop is a truthy callback. -/
structure LoanApplicationProps where
  customerId : Option String
  onLoanApplied : Bool
  onLoanCreated : Bool
  deriving Repr, DecidableEq

/-- The concrete props record built by App.js for `LoanApplication`. -/
def appLoanApplicationProps (debouncedCustomerId : String) : LoanApplicationProps :=
  { customerId := some debouncedCustomerId, onLoanApplied := true, onLoanCreated := false }

/-- Props App.js passes to `PaymentForm` (App.js line 163):
`loans={customerLoans} onPaymentRecorded={fetchCustomerOverview}`. -/
structure PaymentFormProps where
  loans : List Loan
  onPaymentRecorded : Bool
  deriving Repr, DecidableEq

/-- The concrete props record built by App.js for `PaymentForm`. -/
def appPaymentFormProps (customerLoans : List Loan) : PaymentFormProps :=
  { loans := customerLoans, onPaymentRecorded := true }

/-- Count of network requests in a payment action log. -/
def paymentRequests (l : List PaymentAct) : ℕ :=
  (l.filter (fun a => a = PaymentAct.request)).length

/-- Count of `onPaymentRecorded` invocations in a payment action log. -/
def paymentRefreshCalls (l : List PaymentAct) : ℕ :=
  (l.filter (fun a => a = PaymentAct.callOnPaymentRecorded)).length

/-- Count of `setIsProcessingPayment(false)` writes in a payment log. -/
def paymentProcessingClears (l : List PaymentAct) : ℕ :=
  (l.filter (fun a => a = PaymentAct.setProcessing false)).length

/-- Count of network requests in a loan-application action log. -/
def loanRequests (l : List LoanAct) : ℕ :=
  (l.filter (fun a => a = LoanAct.request)).length

/-- Count of `onLoanCreated` invocations in a loan-application log. -/
def loanRefreshCalls (l : List LoanAct) : ℕ :=
  (l.filter (fun a => a = LoanAct.callOnLoanCreated)).length

/-!
## Ledger viewer (`LoanLedger/index.js`)
-/

/-- One ledger transaction (`transaction_id`, `date`, `type`, `amount`). -/
structure LedgerTransaction where
  transaction_id : String
  date : String
  type : String
  amount : ℚ
  deriving Repr, DecidableEq

/-- Parsed body of a 2xx ledger response. -/
structure LedgerData where
  loan_id : String
  customer_id : String
  principal : ℚ
  total_amount : ℚ
  monthly_emi : ℚ
  amount_paid : ℚ
  balance_amount : ℚ
  emis_left : ℕ
  transactions : List LedgerTransaction
  deriving Repr, DecidableEq

/-- Outcome of the awaited `axios.get` on the ledger endpoint: a 2xx with
parsed data, or a rejection whose error object may carry a `response`
(with its HTTP status) and always carries a `message`. -/
inductive LedgerOutcome where
  | ok (data : LedgerData)
  | axiosError (responseStatus : Option ℕ) (message : String)
  deriving Repr, DecidableEq

/-- Actions of `fetchLoanLedger`. -/
inductive LedgerAct where
  | setData (d : Option LedgerData)
  | setError (e : Option String)
  | setLoading (b : Bool)
  | request
  deriving Repr, DecidableEq

/-- `fetchLoanLedger` (LoanLedger/index.js lines 33-60) as its ordered
action log.  An empty `selectedLoanId` clears data and error and returns
before any request; otherwise the request runs under
`try`/`catch`/`finally` — a 404 rejection gets the loan-specific
message, any other rejection the generic one, and the `finally` clears
the loading flag on every path. -/
def fetchLoanLedger (selectedLoanId : String) (out : LedgerOutcome) : List LedgerAct :=
  if selectedLoanId = "" then
    [.setData none, .setError none]
  else
    [.setLoading true, .setError none, .request] ++
    (match out with
     | .ok d => [.setData (some d)]
     | .axiosError status? m =>
         (if status? = some 404 then
            [.setError (some ("Loan ID \"" ++ selectedLoanId ++
              "\" not found or no ledger data available."))]
          else
            [.setError (some ("Failed to fetch loan ledger: " ++ m ++
              ". Please ensure backend is running."))]) ++
         [.setData none]) ++
    [.setLoading false]

/-- Count of `setIsLoadingLedger(false)` writes in a ledger log. -/
def ledgerLoadingClears (l : List LedgerAct) : ℕ :=
  (l.filter (fun a => a = LedgerAct.setLoading false)).length

/-- Count of network requests in a ledger log. -/
def ledgerRequests (l : List LedgerAct) : ℕ :=
  (l.filter (fun a => a = LedgerAct.request)).length

/-- The `LoanLedger` state slice written by `fetchLoanLedger`. -/
structure LedgerState where
  loanLedgerData : Option LedgerData
  isLoadingLedger : Bool
  ledgerError : Option String
  deriving Repr, DecidableEq

/-- Apply one ledger action to the ledger state. -/
def applyLedgerAct (s : LedgerState) : LedgerAct → LedgerState
  | .setData d => { s with loanLedgerData := d }
  | .setError e => { s with ledgerError := e }
  | .setLoading b => { s with isLoadingLedger := b }
  | .request => s

/-- Apply a ledger action log in order. -/
def applyLedgerActs (s : LedgerState) (l : List LedgerAct) : LedgerState :=
  l.foldl applyLedgerAct s

/-- The `PaymentForm` state slice written by `handleSubmit`. -/
structure PaymentFormState where
  paymentAmount : String
  paymentType : String
  responseFeedback : Option String
  isPaymentSuccess : Option Bool
  isProcessingPayment : Bool
  deriving Repr, DecidableEq

/-- Apply one payment action to the form state (`request` and the parent
callback do not write form state). -/
def applyPaymentAct (s : PaymentFormState) : PaymentAct → PaymentFormState
  | .setFeedback m => { s with responseFeedback := m }
  | .setSuccess b => { s with isPaymentSuccess := b }
  | .setProcessing b => { s with isProcessingPayment := b }
  | .setAmount v => { s with paymentAmount := v }
  | .setType v => { s with paymentType := v }
  | .request => s
  | .callOnPaymentRecorded => s

/-- Apply a payment action log in order. -/
def applyPaymentActs (s : PaymentFormState) (l : List PaymentAct) : PaymentFormState :=
  l.foldl applyPaymentAct s

/-!
## Concrete data and derived notions used by the claims
-/

/-- A sample loan returned for customer A. -/
def sampleLoanA : Loan :=
  { loan_id := "LA1", principal := 1000, total_amount := 1100, total_interest := 100,
    emi_amount := 92, amount_paid := 0, emis_left := 12 }

/-- A sample loan returned for customer B. -/
def sampleLoanB : Loan :=
  { loan_id := "LB1", principal := 2000, total_amount := 2200, total_interest := 200,
    emi_amount := 184, amount_paid := 0, emis_left := 12 }

/-- The FetchState displayed after running a trace from the initial state. -/
def displayedAfter (evs : List Ev) : Option FetchState :=
  (run initSys evs).map (fun s => fetchState s.debouncedCustomerId s.ov)

/-- Projection of a trace run onto the published stable identifier. -/
def debouncedAfter (evs : List Ev) : Option String :=
  (run initSys evs).map (fun s => s.debouncedCustomerId)

/-- Projection of a trace run onto the cached loan list. -/
def loansAfter (evs : List Ev) : Option (List Loan) :=
  (run initSys evs).map (fun s => s.ov.customerLoans)

/-- Projection of a trace run onto the publication log. -/
def pubsAfter (evs : List Ev) : Option (List (ℕ × String)) :=
  (run initSys evs).map (fun s => s.pubs)

/-- Projection of a trace run onto the stored error. -/
def errorAfter (evs : List Ev) : Option (Option String) :=
  (run initSys evs).map (fun s => s.ov.error)

/-- Trace for the staleness race: identifier A's request is issued, B is
published and its request issued before A resolves, B's response arrives
first, then A's late response arrives. -/
def staleTrace : List Ev :=
  [ .input 0 "A", .fire 500,
    .input 600 "B", .fire 1100,
    .resolve 1200 1 (.success none (some [sampleLoanB])),
    .resolve 1300 0 (.success none (some [sampleLoanA])) ]

/-- Trace for the empty-input timing: a successful fetch for `x`, then the
raw input becomes empty; the final event is that keystroke itself. -/
def emptyInputTrace : List Ev :=
  [ .input 0 " x ", .fire 500,
    .resolve 600 0 (.success (some "XC") (some [sampleLoanA])),
    .input 700 "" ]

/-- Trace in which the empty identifier is published while a fetch for the
previous identifier is still in flight. -/
def emptyWhileInflightTrace : List Ev :=
  [ .input 0 "x", .fire 500, .input 600 "", .fire 1100 ]

/-- Trace in which a stale failure resolves between a newer request's
issue and its successful resolution. -/
def staleFailureTrace : List Ev :=
  [ .input 0 "A", .fire 500,
    .input 600 "B", .fire 1100,
    .resolve 1200 0 (.httpError 404 (some "customer not found")),
    .resolve 1300 1 (.success none (some [sampleLoanB])) ]

/-- The next change, when there is one, arrives strictly before the 500 ms
timer set at time `t` would elapse. -/
def windowOk (t : ℕ) : List (ℕ × String) → Bool
  | [] => true
  | (t2, _) :: _ => decide (t2 < t + 500)

/-- A sequence of raw-input changes forming one debounce window: each entry
is `(time, value)`, times never decrease starting from `now`, each change
differs from the previous raw value (starting from `cur`), and each change
arrives strictly before the 500 ms timer of the previous one would
elapse. -/
def okChanges (now : ℕ) (cur : String) : List (ℕ × String) → Bool
  | [] => true
  | (t, v) :: rest =>
      decide (now ≤ t) && decide (v ≠ cur) && windowOk t rest && okChanges t v rest

/-- The keystroke events of a change sequence. -/
def inputEvents (changes : List (ℕ × String)) : List Ev :=
  changes.map (fun p => Ev.input p.1 p.2)

/-- A FetchState is terminal when it is Success or Failure. -/
def isTerminal : FetchState → Bool
  | .success _ _ => true
  | .failure _ => true
  | .idle => false
  | .loading => false

/-- Error and success data never coexist: a non-null error forces an empty
loan list and an empty customer name. -/
def errorDataInvariant (s : OverviewState) : Bool :=
  s.error = none || (s.customerLoans = [] && s.customerName = "")

/-- A sample mounted state with one stale request in flight: the request
captured identifier `A`, while the current identifier has moved on to
`B`. -/
def inflightSample : SysState :=
  { now := 1100, mounted := true, customerId := "B", debouncedCustomerId := "B",
    ov := { customerLoans := [], customerName := "", isLoading := true, error := none },
    timer := none, inflight := [(0, "A"), (1, "B")], nextReq := 2, pubs := [] }

/-- A sample mounted state whose pending debounce timer captured a
whitespace-only raw input while the identifier `x` is still current. -/
def emptyTimerSample : SysState :=
  { now := 700, mounted := true, customerId := "  ", debouncedCustomerId := "x",
    ov := { customerLoans := [sampleLoanA], customerName := "XC",
            isLoading := false, error := none },
    timer := some (700, "  "), inflight := [], nextReq := 1, pubs := [(500, "x")] }

/-- A sample mounted state with a pending timer and a request in flight,
about to be torn down. -/
def mountedSample : SysState :=
  { now := 300, mounted := true, customerId := "AB", debouncedCustomerId := "A",
    ov := { customerLoans := [], customerName := "", isLoading := true, error := none },
    timer := some (300, "AB"), inflight := [(0, "A")], nextReq := 1,
    pubs := [(250, "A")] }

/-- The spec §8 typing scenario: `A`, then `AB`, then `ABC`, each within
100 ms, then quiet. -/
def rapidTypingChanges : List (ℕ × String) :=
  [(0, "A"), (100, "AB"), (200, "ABC")]

/-!
## Theorems
-/

/-- C1 counterexample: in the race where identifier A's request is issued,
then B is published and its request issued before A resolves, and A's
response (a success carrying A's loans) arrives after B's, the displayed
FetchState ends up reflecting A's late result, not B's — the prior call's
result is not discarded, contradicting the claim. -/
theorem stale_overwrite_counterexample :
    displayedAfter staleTrace = some (.success "Customer A" [sampleLoanA]) ∧
    displayedAfter staleTrace ≠ some (.success "Customer B" [sampleLoanB]) ∧
    debouncedAfter staleTrace = some "B" := by decide

/-- C2 counterexample: after a successful fetch for `x`, the keystroke that
empties the raw input publishes nothing at that moment: the stable
identifier is still `x`, the cached loans are still displayed, and the
publication log contains no empty publication — the empty case waits for
the 500 ms timer like any other input. -/
theorem empty_input_not_immediate_counterexample :
    debouncedAfter emptyInputTrace = some "x" ∧
    loansAfter emptyInputTrace = some [sampleLoanA] ∧
    pubsAfter emptyInputTrace = some [(500, "x")] := by decide

/-- C3: after a 2xx loan application the coordinator's refresh is never
invoked, because App.js passes the callback under the prop name
`onLoanApplied` while the component destructures `onLoanCreated`; the
payment form's wiring (`onPaymentRecorded` on both sides) does invoke it
exactly once. -/
theorem loan_refresh_wiring_theorem :
    (appLoanApplicationProps "CUST001").onLoanApplied = true ∧
    (appLoanApplicationProps "CUST001").onLoanCreated = false ∧
    loanRefreshCalls (loanHandleSubmit "CUST007" "1000" "10.0" "2"
      (appLoanApplicationProps "CUST001").onLoanCreated
      (.ok (some "Loan created successfully"))) = 0 ∧
    paymentRefreshCalls (paymentHandleSubmit "LA1" "500" "EMI"
      (appPaymentFormProps [sampleLoanA]).onPaymentRecorded
      (.ok (some "Payment recorded successfully"))) = 1 := by decide

/-- C4 counterexample: an HTTP 404 whose body is
`{"message":"customer not found"}` does not yield
`Failure("customer not found")`: the displayed failure message embeds the
body message in a wrapper sentence (the loans are indeed cleared). -/
theorem verbatim_message_counterexample :
    (fetchCustomerOverview "CUST001" (.httpError 404 (some "customer not found"))
        initOverviewState).final.error ≠ some "customer not found" ∧
    fetchState "CUST001"
        (fetchCustomerOverview "CUST001" (.httpError 404 (some "customer not found"))
          initOverviewState).final =
      .failure "Failed to load customer data: customer not found. Please check the Customer ID." ∧
    (fetchCustomerOverview "CUST001" (.httpError 404 (some "customer not found"))
        initOverviewState).final.customerLoans = [] := by decide

/-- C6 counterexample: when the empty identifier is published while a fetch
for the previous identifier is still in flight, the refresh invoked with
the empty identifier leaves the loading flag set, so the displayed
FetchState is Loading, not Idle. -/
theorem empty_refresh_not_idle_counterexample :
    debouncedAfter emptyWhileInflightTrace = some "" ∧
    displayedAfter emptyWhileInflightTrace = some .loading ∧
    displayedAfter emptyWhileInflightTrace ≠ some .idle := by decide

/-- C7 counterexample: a non-numeric payment amount parses to NaN, every
NaN comparison is false, so the validation guard passes and the submission
makes a network request; the loan-application guard has the same gap. -/
theorem nan_amount_passes_validation_counterexample :
    paymentValidationFails "LA1" "abc" "EMI" = false ∧
    paymentRequests (paymentHandleSubmit "LA1" "abc" "EMI" true
      (.thrown "Failed to fetch")) = 1 ∧
    loanValidationFails "CUST007" "abc" "10.0" "2" = false ∧
    loanRequests (loanHandleSubmit "CUST007" "abc" "10.0" "2" false
      (.thrown "Failed to fetch")) = 1 := by decide

/-- C10 counterexample: a stale failure resolving between a newer
request's issue and its successful resolution leaves the error message and
a non-empty loan list in place simultaneously after the newer execution
completes. -/
theorem error_data_coexist_counterexample :
    errorAfter staleFailureTrace =
      some (some "Failed to load customer data: customer not found. Please check the Customer ID.") ∧
    loansAfter staleFailureTrace = some [sampleLoanB] ∧
    loansAfter staleFailureTrace ≠ some [] := by decide

/-- C4 amended: on a non-2xx overview response, the stored error is the
body's `message` (when present and non-empty, else the generic
`HTTP error! status: {code}` text) embedded in the wrapper sentence
`Failed to load customer data: {m}. Please check the Customer ID.`;
the cached loans and customer name are cleared, the loading flag ends
false, and the displayed FetchState is the Failure carrying that wrapped
message. -/
theorem http_error_sets_wrapped_failure (id : String) (status : ℕ)
    (msg? : Option String) (s : OverviewState) (h : id ≠ "") :
    (fetchCustomerOverview id (.httpError status msg?) s).final.error =
      some ("Failed to load customer data: " ++
        jsStringOr (msg?.getD "") ("HTTP error! status: " ++ toString status) ++
        ". Please check the Customer ID.") ∧
    (fetchCustomerOverview id (.httpError status msg?) s).final.customerLoans = [] ∧
    (fetchCustomerOverview id (.httpError status msg?) s).final.customerName = "" ∧
    (fetchCustomerOverview id (.httpError status msg?) s).final.isLoading = false ∧
    fetchState id (fetchCustomerOverview id (.httpError status msg?) s).final =
      .failure ("Failed to load customer data: " ++
        jsStringOr (msg?.getD "") ("HTTP error! status: " ++ toString status) ++
        ". Please check the Customer ID.") := by
  simp [fetchCustomerOverview, h, applyEvs, applyEv, issueWrites, resolveWrites, fetchState]

/-- Witness for `http_error_sets_wrapped_failure` at the spec's 404
scenario. -/
theorem http_error_sets_wrapped_failure_witness :
    (fetchCustomerOverview "CUST001" (.httpError 404 (some "customer not found"))
        initOverviewState).final.customerLoans = [] :=
  (http_error_sets_wrapped_failure "CUST001" 404 (some "customer not found")
    initOverviewState (by decide)).2.1

/-- C6 amended: `refresh()` invoked with the empty identifier clears the
cached loans and customer name and issues no request, but writes neither
the loading flag nor the error; the resulting FetchState is therefore
Idle exactly when no fetch was in flight and no error was pending at the
moment of the call. -/
theorem empty_refresh_clears_data (out : FetchOutcome) (s : OverviewState) :
    (fetchCustomerOverview "" out s).requestIssued = false ∧
    (fetchCustomerOverview "" out s).final.customerLoans = [] ∧
    (fetchCustomerOverview "" out s).final.customerName = "" ∧
    (fetchCustomerOverview "" out s).final.isLoading = s.isLoading ∧
    (fetchCustomerOverview "" out s).final.error = s.error ∧
    (s.isLoading = false → s.error = none →
      fetchState "" (fetchCustomerOverview "" out s).final = .idle) := by
  refine ⟨by simp [fetchCustomerOverview], by simp [fetchCustomerOverview, applyEvs, applyEv],
    by simp [fetchCustomerOverview, applyEvs, applyEv],
    by simp [fetchCustomerOverview, applyEvs, applyEv],
    by simp [fetchCustomerOverview, applyEvs, applyEv], ?_⟩
  intro h1 h2
  simp [fetchCustomerOverview, applyEvs, applyEv, fetchState, h1, h2]

/-- Witness for `empty_refresh_clears_data` from the initial state. -/
theorem empty_refresh_clears_data_witness :
    fetchState ""
      (fetchCustomerOverview "" (.transportError "Failed to fetch")
        initOverviewState).final = .idle :=
  (empty_refresh_clears_data (.transportError "Failed to fetch")
    initOverviewState).2.2.2.2.2 rfl rfl

/-- C1 amended: a resolving overview request always applies its writes to
the displayed state — the continuation contains no comparison of the
request's captured identifier against the current one, so whichever
response arrives last wins, and a prior call's late result can overwrite
the state belonging to the newer identifier. -/
theorem resolve_applies_unconditionally (s : SysState) (t k : ℕ) (p : ℕ × String)
    (out : FetchOutcome) (hm : s.mounted = true) (ht : s.now ≤ t)
    (hf : s.inflight.find? (fun q => q.1 = k) = some p) :
    ∃ s2, step s (.resolve t k out) = some s2 ∧
      s2.ov = applyEvs s.ov (resolveWrites p.2 out ++ [.setLoading false]) ∧
      s2.debouncedCustomerId = s.debouncedCustomerId ∧
      s2.pubs = s.pubs := by
  refine ⟨{ s with now := t,
                   inflight := s.inflight.filter (fun q => q.1 ≠ k),
                   ov := applyEvs s.ov (resolveWrites p.2 out ++ [.setLoading false]) },
          ?_, rfl, rfl, rfl⟩
  simp [step, ht, hf, hm]

/-- Witness for `resolve_applies_unconditionally`: the stale request for
`A` resolves while `B` is current. -/
theorem resolve_applies_unconditionally_witness :
    ∃ s2, step inflightSample (.resolve 1300 0 (.success none (some [sampleLoanA]))) = some s2 ∧
      s2.ov = applyEvs inflightSample.ov
        (resolveWrites "A" (.success none (some [sampleLoanA])) ++ [.setLoading false]) ∧
      s2.debouncedCustomerId = inflightSample.debouncedCustomerId ∧
      s2.pubs = inflightSample.pubs :=
  resolve_applies_unconditionally inflightSample 1300 0 (0, "A")
    (.success none (some [sampleLoanA])) (by decide) (by decide) (by decide)

/-- C2 amended: when the raw input has become empty or whitespace-only,
the empty identifier is published and the cached loans, customer name and
error are cleared only when the 500 ms debounce timer fires — the empty
case is not special-cased to happen at the moment of the keystroke. -/
theorem empty_publication_after_debounce (s : SysState) (t t0 : ℕ) (v : String)
    (hm : s.mounted = true) (ht : s.now ≤ t) (htimer : s.timer = some (t0, v))
    (hv : jsTrim v = "") (helapsed : t0 + 500 ≤ t) :
    ∃ s2, step s (.fire t) = some s2 ∧
      s2.debouncedCustomerId = "" ∧
      s2.ov.customerLoans = [] ∧
      s2.ov.customerName = "" ∧
      s2.ov.error = none ∧
      s2.pubs = s.pubs ++ [(t, "")] := by
  have hstep : step s (.fire t) =
      some (if s.debouncedCustomerId = ""
            then { s with now := t, timer := none, debouncedCustomerId := "",
                          ov := applyEvs s.ov [.setLoans [], .setName "", .setError none],
                          pubs := s.pubs ++ [(t, "")] }
            else refreshIssue
                 { s with now := t, timer := none, debouncedCustomerId := "",
                          ov := applyEvs s.ov [.setLoans [], .setName "", .setError none],
                          pubs := s.pubs ++ [(t, "")] }) := by
    simp [step, hm, ht, htimer, helapsed, hv]
    split <;> rfl
  by_cases hd : s.debouncedCustomerId = ""
  · rw [hstep, if_pos hd]
    exact ⟨_, rfl, rfl, by simp [applyEvs, applyEv], by simp [applyEvs, applyEv],
      by simp [applyEvs, applyEv], rfl⟩
  · rw [hstep, if_neg hd]
    refine ⟨_, rfl, ?_, ?_, ?_, ?_, ?_⟩ <;>
      simp [refreshIssue, applyEvs, applyEv]

/-- Witness for `empty_publication_after_debounce`: the whitespace-only
timer of `emptyTimerSample` fires at 1200 ms. -/
theorem empty_publication_after_debounce_witness :
    ∃ s2, step emptyTimerSample (.fire 1200) = some s2 ∧
      s2.debouncedCustomerId = "" ∧
      s2.ov.customerLoans = [] ∧
      s2.ov.customerName = "" ∧
      s2.ov.error = none ∧
      s2.pubs = emptyTimerSample.pubs ++ [(1200, "")] :=
  empty_publication_after_debounce emptyTimerSample 1200 700 "  "
    (by decide) (by decide) (by decide) (by decide) (by decide)

/-- C10 amended: after every complete, non-interleaved execution of
`fetchCustomerOverview` — any identifier, any outcome, any starting
state — a non-null error coexists only with an empty loan list and an
empty customer name; the counterexample shows that two interleaved
executions can break this. -/
theorem atomic_fetch_error_data_invariant (id : String) (out : FetchOutcome)
    (s : OverviewState) :
    errorDataInvariant (fetchCustomerOverview id out s).final = true := by
  by_cases h : id = "" <;> cases out <;>
    simp [fetchCustomerOverview, h, applyEvs, applyEv, issueWrites, resolveWrites,
      errorDataInvariant]

/-- After teardown every step preserves unmountedness, the publication
log, the stable identifier and the timer: UI events are disabled and a
resolving request performs no state writes on an unmounted component. -/
theorem unmounted_step_preserves (s : SysState) (e : Ev) (s2 : SysState)
    (hm : s.mounted = false) (h : step s e = some s2) :
    s2.mounted = false ∧ s2.pubs = s.pubs ∧
      s2.debouncedCustomerId = s.debouncedCustomerId ∧ s2.timer = s.timer := by
  cases e with
  | input t v => simp [step, hm] at h
  | fire t => simp [step, hm] at h
  | unmount t => simp [step, hm] at h
  | resolve t k out =>
      rw [step] at h
      split at h
      · split at h
        · rw [hm] at h
          simp at h
          subst h
          exact ⟨rfl, rfl, rfl, rfl⟩
        · exact absurd h (by simp)
      · exact absurd h (by simp)

/-- After teardown no run of further events changes the publication log,
the stable identifier or the (cancelled) timer. -/
theorem unmounted_run_preserves (evs : List Ev) : ∀ (s s2 : SysState),
    s.mounted = false → run s evs = some s2 →
    s2.pubs = s.pubs ∧ s2.debouncedCustomerId = s.debouncedCustomerId ∧
      s2.timer = s.timer := by
  induction evs with
  | nil =>
      intro s s2 _ h
      simp [run] at h
      subst h
      exact ⟨rfl, rfl, rfl⟩
  | cons e rest ih =>
      intro s s2 hm h
      rw [run] at h
      cases hstep : step s e with
      | none => rw [hstep] at h; exact absurd h (by simp)
      | some s1 =>
          rw [hstep] at h
          obtain ⟨hm1, hp1, hd1, ht1⟩ := unmounted_step_preserves s e s1 hm hstep
          obtain ⟨hp2, hd2, ht2⟩ := ih s1 s2 hm1 h
          exact ⟨hp2.trans hp1, hd2.trans hd1, ht2.trans ht1⟩

/-- C9: tearing the component down cancels the pending debounce timer
(the effect cleanup runs `clearTimeout`), and no trace of events after the
teardown can extend the publication log, change the stable identifier, or
re-arm a timer: the pending timer never fires after teardown. -/
theorem teardown_cancels_pending_timer (s : SysState) (t : ℕ) (evs : List Ev)
    (s3 : SysState) (hm : s.mounted = true) (ht : s.now ≤ t)
    (h : run s (Ev.unmount t :: evs) = some s3) :
    s3.timer = none ∧ s3.pubs = s.pubs ∧
      s3.debouncedCustomerId = s.debouncedCustomerId := by
  have hstep : step s (.unmount t) = some { s with now := t, mounted := false, timer := none } := by
    simp [step, hm, ht]
  rw [run, hstep] at h
  obtain ⟨hp, hd, htm⟩ := unmounted_run_preserves evs _ s3 rfl h
  exact ⟨htm, hp, hd⟩

/-- Witness for `teardown_cancels_pending_timer`: `mountedSample` (pending
timer, one request in flight) is torn down at 800 ms and its stale request
then resolves; no publication occurs. -/
theorem teardown_cancels_pending_timer_witness :
    ((run mountedSample
        [Ev.unmount 800, Ev.resolve 900 0 (.transportError "Failed to fetch")]).getD
      initSys).timer = none ∧
    ((run mountedSample
        [Ev.unmount 800, Ev.resolve 900 0 (.transportError "Failed to fetch")]).getD
      initSys).pubs = mountedSample.pubs ∧
    ((run mountedSample
        [Ev.unmount 800, Ev.resolve 900 0 (.transportError "Failed to fetch")]).getD
      initSys).debouncedCustomerId = mountedSample.debouncedCustomerId :=
  teardown_cancels_pending_timer mountedSample 800
    [Ev.resolve 900 0 (.transportError "Failed to fetch")] _ (by decide) (by decide)
    (by decide)

/-- C7 amended: the client-side guards reject exactly a missing loan
selection, a payment amount parsing to a number ≤ 0, a missing payment
type (payment form), a blank customer id, a loan amount parsing ≤ 0, an
interest rate parsing < 0 and a period parsing ≤ 0 (loan form); a
rejected submission reports the inline message and makes no network
call, any submission passing the guard makes exactly one network call,
and fields that fail to parse (NaN) never trip the numeric checks, so
non-numeric amounts pass validation and reach the network. -/
theorem validation_guard_characterisation
    (selectedLoanId paymentAmount paymentType : String) (cb : Bool)
    (out : SubmitOutcome) (ps : PaymentFormState)
    (customerId loanAmount interestRateYearly loanPeriodYears : String)
    (cb2 : Bool) (out2 : SubmitOutcome) :
    (paymentValidationFails selectedLoanId paymentAmount paymentType = true →
      paymentRequests (paymentHandleSubmit selectedLoanId paymentAmount paymentType cb out) = 0 ∧
      (applyPaymentActs ps
        (paymentHandleSubmit selectedLoanId paymentAmount paymentType cb out)).responseFeedback =
        some ("Please select a loan, ensure payment amount is positive, " ++
          "and select a payment type.") ∧
      (applyPaymentActs ps
        (paymentHandleSubmit selectedLoanId paymentAmount paymentType cb out)).isPaymentSuccess =
        some false) ∧
    (paymentValidationFails selectedLoanId paymentAmount paymentType = false →
      paymentRequests (paymentHandleSubmit selectedLoanId paymentAmount paymentType cb out) = 1) ∧
    (parseFloat paymentAmount = none →
      paymentValidationFails selectedLoanId paymentAmount paymentType =
        (decide (selectedLoanId = "") || decide (paymentType = ""))) ∧
    (loanValidationFails customerId loanAmount interestRateYearly loanPeriodYears = true →
      loanRequests (loanHandleSubmit customerId loanAmount interestRateYearly
        loanPeriodYears cb2 out2) = 0) ∧
    (loanValidationFails customerId loanAmount interestRateYearly loanPeriodYears = false →
      loanRequests (loanHandleSubmit customerId loanAmount interestRateYearly
        loanPeriodYears cb2 out2) = 1) ∧
    (parseFloat loanAmount = none → parseFloat interestRateYearly = none →
      parseIntTen loanPeriodYears = none →
      loanValidationFails customerId loanAmount interestRateYearly loanPeriodYears =
        decide (jsTrim customerId = "")) := by
  refine ⟨?_, ?_, ?_, ?_, ?_, ?_⟩
  · intro h
    simp [paymentHandleSubmit, h, paymentRequests, applyPaymentActs, applyPaymentAct]
  · intro h
    cases out <;>
      simp [paymentHandleSubmit, h, paymentRequests, List.filter_append]
  · intro h
    simp [paymentValidationFails, h, jsLe]
  · intro h
    simp [loanHandleSubmit, h, loanRequests]
  · intro h
    cases out2 <;>
      simp [loanHandleSubmit, h, loanRequests, List.filter_append]
  · intro h1 h2 h3
    simp [loanValidationFails, h1, h2, h3, jsLe, jsLt]

/-- Witness for `validation_guard_characterisation`: a valid payment
passes the guard and issues one request; a blank loan-form submission is
rejected with no request. -/
theorem validation_guard_characterisation_witness :
    paymentRequests (paymentHandleSubmit "LA1" "500" "EMI" true
      (.ok (some "Payment recorded successfully"))) = 1 ∧
    loanRequests (loanHandleSubmit "" "1000" "10.0" "2" false
      (.ok (some "Loan created successfully"))) = 0 :=
  ⟨(validation_guard_characterisation "LA1" "500" "EMI" true
      (.ok (some "Payment recorded successfully"))
      { paymentAmount := "500", paymentType := "EMI", responseFeedback := none,
        isPaymentSuccess := none, isProcessingPayment := false }
      "" "1000" "10.0" "2" false
      (.ok (some "Loan created successfully"))).2.1 (by decide),
   (validation_guard_characterisation "LA1" "500" "EMI" true
      (.ok (some "Payment recorded successfully"))
      { paymentAmount := "500", paymentType := "EMI", responseFeedback := none,
        isPaymentSuccess := none, isProcessingPayment := false }
      "" "1000" "10.0" "2" false
      (.ok (some "Loan created successfully"))).2.2.2.1 (by decide)⟩

/-- C8: for every request cycle — an overview fetch with a non-empty
identifier, a payment submission that passed validation, and a ledger
fetch with a selected loan — the loading indicator set at the start is
cleared exactly once on every exit path (2xx, non-2xx and thrown
transport/parse error alike), and each path ends in a defined terminal UI
state: the overview shows Success or Failure, the payment form records a
definite success flag, and the ledger shows either data with no error or
an error with no data. -/
theorem request_cycle_loading_discipline :
    (∀ (id : String) (out : FetchOutcome) (s : OverviewState), id ≠ "" →
      loadingClears (fetchCustomerOverview id out s).log = 1 ∧
      (fetchCustomerOverview id out s).final.isLoading = false ∧
      isTerminal (fetchState id (fetchCustomerOverview id out s).final) = true) ∧
    (∀ (l a p : String) (cb : Bool) (out : SubmitOutcome) (ps : PaymentFormState),
      paymentValidationFails l a p = false →
      paymentProcessingClears (paymentHandleSubmit l a p cb out) = 1 ∧
      (applyPaymentActs ps (paymentHandleSubmit l a p cb out)).isProcessingPayment = false ∧
      (applyPaymentActs ps (paymentHandleSubmit l a p cb out)).isPaymentSuccess ≠ none) ∧
    (∀ (lid : String) (out : LedgerOutcome) (ls : LedgerState), lid ≠ "" →
      ledgerLoadingClears (fetchLoanLedger lid out) = 1 ∧
      (applyLedgerActs ls (fetchLoanLedger lid out)).isLoadingLedger = false ∧
      (((applyLedgerActs ls (fetchLoanLedger lid out)).ledgerError = none ∧
        (applyLedgerActs ls (fetchLoanLedger lid out)).loanLedgerData ≠ none) ∨
       ((applyLedgerActs ls (fetchLoanLedger lid out)).ledgerError ≠ none ∧
        (applyLedgerActs ls (fetchLoanLedger lid out)).loanLedgerData = none))) := by
  refine ⟨?_, ?_, ?_⟩
  · intro id out s h
    cases out <;>
      simp [fetchCustomerOverview, h, applyEvs, applyEv, issueWrites, resolveWrites,
        loadingClears, List.filter_append, fetchState, isTerminal]
  · intro l a p cb out ps h
    cases out <;>
      cases cb <;>
        simp [paymentHandleSubmit, h, paymentProcessingClears, List.filter_append,
          applyPaymentActs, applyPaymentAct]
  · intro lid out ls h
    cases out with
    | ok d =>
        simp [fetchLoanLedger, h, ledgerLoadingClears, List.filter_append,
          applyLedgerActs, applyLedgerAct]
    | axiosError status? m =>
        by_cases h404 : status? = some 404 <;>
          simp [fetchLoanLedger, h, h404, ledgerLoadingClears, List.filter_append,
            applyLedgerActs, applyLedgerAct]

/-- Witness for `request_cycle_loading_discipline` on a transport-failed
overview fetch, a 2xx payment, and a 404 ledger fetch. -/
theorem request_cycle_loading_discipline_witness :
    loadingClears (fetchCustomerOverview "CUST001" (.transportError "Failed to fetch")
      initOverviewState).log = 1 ∧
    paymentProcessingClears (paymentHandleSubmit "LA1" "500" "EMI" true
      (.ok (some "Payment recorded successfully"))) = 1 ∧
    ledgerLoadingClears (fetchLoanLedger "LA1"
      (.axiosError (some 404) "Request failed with status code 404")) = 1 :=
  ⟨(request_cycle_loading_discipline.1 "CUST001" (.transportError "Failed to fetch")
      initOverviewState (by decide)).1,
   (request_cycle_loading_discipline.2.1 "LA1" "500" "EMI" true
      (.ok (some "Payment recorded successfully"))
      { paymentAmount := "500", paymentType := "EMI", responseFeedback := none,
        isPaymentSuccess := none, isProcessingPayment := false } (by decide)).1,
   (request_cycle_loading_discipline.2.2 "LA1"
      (.axiosError (some 404) "Request failed with status code 404")
      { loanLedgerData := none, isLoadingLedger := false, ledgerError := none }
      (by decide)).1⟩

/-- Running a concatenated trace is running the pieces in sequence. -/
theorem run_append (a : List Ev) : ∀ (s : SysState) (b : List Ev),
    run s (a ++ b) = (run s a).bind (fun s1 => run s1 b) := by
  induction a with
  | nil => intro s b; simp [run]
  | cons e rest ih =>
      intro s b
      rw [List.cons_append, run, run]
      cases hstep : step s e with
      | none => simp
      | some s1 => simp [ih]

/-- Processing a within-window change sequence publishes nothing: the run
succeeds, the publication log, the stable identifier and the overview
state are untouched, and the only effect is the freshly restarted timer
capturing the final raw value. -/
theorem run_inputs_no_publication : ∀ (changes : List (ℕ × String)) (s : SysState)
    (tn : ℕ) (vn : String), s.mounted = true →
    okChanges s.now s.customerId changes = true →
    changes.getLast? = some (tn, vn) →
    ∃ s1, run s (inputEvents changes) = some s1 ∧
      s1.pubs = s.pubs ∧ s1.timer = some (tn, vn) ∧ s1.mounted = true ∧
      s1.now = tn ∧ s1.customerId = vn ∧
      s1.debouncedCustomerId = s.debouncedCustomerId ∧ s1.ov = s.ov := by
  intro changes
  induction changes with
  | nil =>
      intro s tn vn _ _ hlast
      simp at hlast
  | cons p rest ih =>
      obtain ⟨t, v⟩ := p
      intro s tn vn hm hok hlast
      simp only [okChanges, Bool.and_eq_true, decide_eq_true_eq] at hok
      obtain ⟨⟨⟨hnt, hne⟩, _⟩, hoktail⟩ := hok
      have hstep : step s (.input t v) =
          some { s with now := t, customerId := v, timer := some (t, v) } := by
        rw [step, if_pos ⟨hm, hnt⟩, if_neg hne]
      cases rest with
      | nil =>
          simp only [List.getLast?_singleton, Option.some.injEq, Prod.mk.injEq] at hlast
          obtain ⟨h1, h2⟩ := hlast
          subst h1; subst h2
          refine ⟨{ s with now := t, customerId := v, timer := some (t, v) },
            ?_, rfl, rfl, hm, rfl, rfl, rfl, rfl⟩
          simp [inputEvents, run, hstep]
      | cons q rest2 =>
          have hlast2 : (q :: rest2).getLast? = some (tn, vn) := by
            rw [List.getLast?_cons_cons] at hlast
            exact hlast
          obtain ⟨s2, hrun, hp, htm, hm2, hnow2, hcid2, hdeb2, hov2⟩ :=
            ih { s with now := t, customerId := v, timer := some (t, v) } tn vn hm
              hoktail hlast2
          refine ⟨s2, ?_, hp, htm, hm2, hnow2, hcid2, hdeb2, hov2⟩
          simp only [inputEvents, List.map_cons]
          rw [run, hstep]
          exact hrun

/-- C5: for any change sequence within one debounce window followed by a
quiet period, the resolver publishes nothing while the changes arrive and
publishes exactly once when the surviving timer fires, with the trimmed
final raw value, which becomes the stable identifier. -/
theorem debounce_single_publication (s : SysState) (changes : List (ℕ × String))
    (tn T : ℕ) (vn : String) (hm : s.mounted = true)
    (hok : okChanges s.now s.customerId changes = true)
    (hlast : changes.getLast? = some (tn, vn)) (hT : tn + 500 ≤ T) :
    ∃ sMid sFin,
      run s (inputEvents changes) = some sMid ∧
      sMid.pubs = s.pubs ∧
      run s (inputEvents changes ++ [Ev.fire T]) = some sFin ∧
      sFin.pubs = s.pubs ++ [(T, jsTrim vn)] ∧
      sFin.debouncedCustomerId = jsTrim vn := by
  obtain ⟨sMid, hrun, hp, htm, hmnt, hnow, _, _, _⟩ :=
    run_inputs_no_publication changes s tn vn hm hok hlast
  have hnowT : sMid.now ≤ T := by omega
  have hTn : tn ≤ T := by omega
  have htail : run s (inputEvents changes ++ [Ev.fire T]) = run sMid [Ev.fire T] := by
    rw [run_append, hrun]
    rfl
  obtain ⟨sFin, hstep⟩ : ∃ sFin, step sMid (.fire T) = some sFin ∧
      sFin.pubs = sMid.pubs ++ [(T, jsTrim vn)] ∧
      sFin.debouncedCustomerId = jsTrim vn := by
    by_cases htr : jsTrim vn = ""
    · have hstep0 : step sMid (.fire T) =
          some (if sMid.debouncedCustomerId = ""
                then { sMid with now := T, timer := none, debouncedCustomerId := "",
                                 ov := applyEvs sMid.ov
                                   [.setLoans [], .setName "", .setError none],
                                 pubs := sMid.pubs ++ [(T, jsTrim vn)] }
                else refreshIssue
                     { sMid with now := T, timer := none, debouncedCustomerId := "",
                                 ov := applyEvs sMid.ov
                                   [.setLoans [], .setName "", .setError none],
                                 pubs := sMid.pubs ++ [(T, jsTrim vn)] }) := by
        simp [step, hmnt, hnowT, htm, hnow, hT, htr, hTn]
        split <;> rfl
      rw [hstep0]
      by_cases hd : sMid.debouncedCustomerId = ""
      · rw [if_pos hd]
        exact ⟨_, rfl, rfl, htr.symm⟩
      · rw [if_neg hd]
        exact ⟨_, rfl, by simp [refreshIssue], by simp [refreshIssue, htr]⟩
    · have hstep0 : step sMid (.fire T) =
          some (if jsTrim vn = sMid.debouncedCustomerId
                then { sMid with now := T, timer := none,
                                 debouncedCustomerId := jsTrim vn,
                                 pubs := sMid.pubs ++ [(T, jsTrim vn)] }
                else refreshIssue
                     { sMid with now := T, timer := none,
                                 debouncedCustomerId := jsTrim vn,
                                 pubs := sMid.pubs ++ [(T, jsTrim vn)] }) := by
        simp [step, hmnt, hnowT, htm, hnow, hT, htr, hTn]
        split <;> rfl
      rw [hstep0]
      by_cases hd : jsTrim vn = sMid.debouncedCustomerId
      · rw [if_pos hd]
        exact ⟨_, rfl, rfl, rfl⟩
      · rw [if_neg hd]
        refine ⟨_, rfl, ?_, ?_⟩ <;>
          · rw [refreshIssue]
            split <;> simp
  obtain ⟨hstep1, hpub, hdeb⟩ := hstep
  refine ⟨sMid, sFin, hrun, hp, ?_, ?_, hdeb⟩
  · rw [htail, run, hstep1]
    rfl
  · rw [hpub, hp]

/-- Witness for `debounce_single_publication`: the spec §8 rapid-typing
scenario `A`, `AB`, `ABC` from the initial state, firing at 700 ms,
publishes exactly `[(700, "ABC")]`. -/
theorem debounce_single_publication_witness :
    pubsAfter (inputEvents rapidTypingChanges ++ [Ev.fire 700]) = some [(700, "ABC")] ∧
    debouncedAfter (inputEvents rapidTypingChanges ++ [Ev.fire 700]) = some "ABC" := by
  obtain ⟨sMid, sFin, h1, h2, h3, h4, h5⟩ :=
    debounce_single_publication initSys rapidTypingChanges 200 700 "ABC" rfl
      (by decide) (by decide) (by decide)
  constructor
  · rw [pubsAfter, h3, Option.map_some']
    rw [h4]
    decide
  · rw [debouncedAfter, h3, Option.map_some']
    rw [h5]
    decide

end BankFrontend
